import Mathlib

/-!
Verification of the chaptered-backend server (`server.py`): a shallow
embedding of its request handlers as pure state-passing functions over the
document store, together with theorems about the auth, review-aggregate,
cart, wishlist and order behaviours.

Document-store conventions embedded here, matching the MongoDB calls in the
source: `find_one` returns the first document (insertion order) matching the
filter, `insert_one` appends, `update_one` modifies the first match and
`delete_one` removes the first match.  Request-level effects (generated
UUIDs, current time, the bcrypt salt) are threaded as explicit arguments.
-/

namespace Chaptered

/-- Mongo update_one semantics: apply `f` to the first element satisfying `p`. -/
def updateFirst (p : α → Bool) (f : α → α) : List α → List α
  | [] => []
  | x :: xs => if p x then f x :: xs else x :: updateFirst p f xs

/-- Mongo delete_one semantics: drop the first element satisfying `p`. -/
def removeFirst (p : α → Bool) : List α → List α
  | [] => []
  | x :: xs => if p x then xs else x :: removeFirst p xs

/-- A FastAPI `HTTPException`: status code plus detail string. -/
structure HErr where
  status_code : Nat
  detail : String
deriving DecidableEq, Repr

/-- Model of a bcrypt salted hash: the (salt, password) pair, an idealised
irreversible collision-free digest.  `hash_password` in the source calls
`bcrypt.hashpw(password, bcrypt.gensalt())`; the generated salt is threaded
in as an argument. -/
def hash_password (salt password : String) : String × String :=
  (salt, password)

/-- Model of verify_password: bcrypt checkpw succeeds exactly when the
candidate password matches the one hashed (the salt is recovered from the
hash). -/
def verify_password (password : String) (hashed : String × String) : Bool :=
  hashed.2 == password

/-- The JWT payload built by `create_token`: user id and absolute expiry
(seconds since epoch). -/
structure TokenPayload where
  user_id : String
  exp : Nat
deriving DecidableEq, Repr

/-- Model of an HS256 signature over a payload with a server secret:
an idealised MAC, a deterministic injective function of both. -/
def mkSig (secret : String) (p : TokenPayload) : String × TokenPayload :=
  (secret, p)

/-- A JWT as produced by `jwt.encode`: payload plus signature. -/
structure Token where
  payload : TokenPayload
  sig : String × TokenPayload
deriving DecidableEq, Repr

/-- Model of create_token: the payload carries the user id and an expiry
7 days (in seconds) from now, signed with the server secret. -/
def create_token (secret uid : String) (now : Nat) : Token :=
  { payload := { user_id := uid, exp := now + 7 * 24 * 60 * 60 },
    sig := mkSig secret { user_id := uid, exp := now + 7 * 24 * 60 * 60 } }

/-- PyJWT decode errors: `ExpiredSignatureError` and `InvalidTokenError`. -/
inductive JwtError where
  | expired
  | invalid
deriving DecidableEq, Repr

/-- Model of jwt.decode: verify the signature first (a bad signature gives
InvalidTokenError), then the exp claim (a token is expired once the
current time exceeds exp, giving ExpiredSignatureError). -/
def jwt_decode (secret : String) (now : Nat) (t : Token) : Except JwtError TokenPayload :=
  if t.sig = mkSig secret t.payload then
    if t.payload.exp < now then Except.error JwtError.expired
    else Except.ok t.payload
  else Except.error JwtError.invalid

/-- A user document as stored in `db.users`. -/
structure UserDoc where
  id : String
  name : String
  email : String
  password : String × String
  is_admin : Bool
  wishlist : List String
  created_at : String
deriving DecidableEq, Repr

/-- A user as returned by `get_current_user`: the stored document with the
password field projected away by the Mongo projection. -/
structure UserView where
  id : String
  name : String
  email : String
  is_admin : Bool
  wishlist : List String
  created_at : String
deriving DecidableEq, Repr

/-- Project away the password hash. -/
def UserDoc.toView (u : UserDoc) : UserView :=
  { id := u.id, name := u.name, email := u.email, is_admin := u.is_admin,
    wishlist := u.wishlist, created_at := u.created_at }

/-- Public user fields returned by `register` and `login`. -/
structure PubUser where
  id : String
  name : String
  email : String
  is_admin : Bool
deriving DecidableEq, Repr

/-- A product document as stored in `db.products`. -/
structure ProductDoc where
  id : String
  name : String
  description : String
  price : ℚ
  images : List String
  sizes : List String
  colors : List String
  design_category : String
  stock : Int
  rating : ℚ
  review_count : Nat
  created_at : String
deriving DecidableEq, Repr

/-- A review document as stored in `db.reviews`. -/
structure ReviewDoc where
  id : String
  product_id : String
  user_id : String
  user_name : String
  rating : Int
  comment : String
  created_at : String
deriving DecidableEq, Repr

/-- The `ReviewCreate` request body. -/
structure ReviewCreate where
  rating : Int
  comment : String
deriving DecidableEq, Repr

/-- A cart line item. -/
structure CartItem where
  product_id : String
  quantity : Int
  size : String
  color : String
deriving DecidableEq, Repr

/-- A cart document as stored in `db.carts`. -/
structure CartDoc where
  user_id : String
  items : List CartItem
  updated_at : String
deriving DecidableEq, Repr

/-- An order line item. -/
structure OrderItem where
  product_id : String
  product_name : String
  quantity : Int
  size : String
  color : String
  price : ℚ
deriving DecidableEq, Repr

/-- The `OrderCreate` request body; the shipping address dict is modelled
as a key-value list. -/
structure OrderCreate where
  items : List OrderItem
  total_amount : ℚ
  shipping_address : List (String × String)
deriving DecidableEq, Repr

/-- An order document as stored in `db.orders`. -/
structure OrderDoc where
  id : String
  user_id : String
  user_name : String
  user_email : String
  items : List OrderItem
  total_amount : ℚ
  shipping_address : List (String × String)
  status : String
  created_at : String
deriving DecidableEq, Repr

/-- The whole document store: the five collections the handlers touch. -/
structure DBState where
  users : List UserDoc
  products : List ProductDoc
  reviews : List ReviewDoc
  carts : List CartDoc
  orders : List OrderDoc
deriving DecidableEq, Repr

/-- Model of get_current_user: decode the bearer token, map decode errors to 401
responses, then resolve the user document (password projected away),
401 "User not found" if absent. -/
def get_current_user (secret : String) (now : Nat) (users : List UserDoc)
    (t : Token) : Except HErr UserView :=
  match jwt_decode secret now t with
  | Except.error JwtError.expired => Except.error ⟨401, "Token expired"⟩
  | Except.error JwtError.invalid => Except.error ⟨401, "Invalid token"⟩
  | Except.ok p =>
    match users.find? (fun u => u.id == p.user_id) with
    | none => Except.error ⟨401, "User not found"⟩
    | some u => Except.ok u.toView

/-- Model of register: 400 "Email already registered" if the email is taken,
otherwise insert a new user (admin false, empty wishlist, salted hash) and
return a token plus public fields.  `uid` is the generated UUID, `salt` the
generated bcrypt salt, `now`/`nowIso` the current time. -/
def register (secret : String) (st : DBState) (name email password : String)
    (uid salt : String) (now : Nat) (nowIso : String) :
    DBState × Except HErr (Token × PubUser) :=
  match st.users.find? (fun u => u.email == email) with
  | some _ => (st, Except.error ⟨400, "Email already registered"⟩)
  | none =>
    let doc : UserDoc :=
      { id := uid, name := name, email := email,
        password := hash_password salt password,
        is_admin := false, wishlist := [], created_at := nowIso }
    ({ st with users := st.users ++ [doc] },
     Except.ok (create_token secret uid now, ⟨uid, name, email, false⟩))

/-- Model of login: a single 401 "Invalid credentials" both when the email is
absent and when the stored hash does not verify; on success a token plus
public fields. -/
def login (secret : String) (st : DBState) (email password : String)
    (now : Nat) : Except HErr (Token × PubUser) :=
  match st.users.find? (fun u => u.email == email) with
  | none => Except.error ⟨401, "Invalid credentials"⟩
  | some u =>
    if verify_password password u.password then
      Except.ok (create_token secret u.id now, ⟨u.id, u.name, u.email, u.is_admin⟩)
    else Except.error ⟨401, "Invalid credentials"⟩

/-- The reviews stored for one product, as read back by the find on the
reviews collection filtered by product id. -/
def reviewsFor (reviews : List ReviewDoc) (pid : String) : List ReviewDoc :=
  reviews.filter (fun r => r.product_id == pid)

/-- Floor of a rational (denominator is positive, so Euclidean division of
numerator by denominator is the floor). -/
def ratFloor (q : ℚ) : ℤ :=
  Int.ediv q.num q.den

/-- Round-half-to-even on rationals: the semantics of Python `round` for an
exact value. -/
def roundHalfEven (q : ℚ) : ℤ :=
  let f := ratFloor q
  let frac := q - (f : ℚ)
  if frac < 1 / 2 then f
  else if 1 / 2 < frac then f + 1
  else if f % 2 = 0 then f else f + 1

/-- Python `round(x, 1)`: round to the nearest tenth. -/
def pyRound1 (q : ℚ) : ℚ :=
  (roundHalfEven (q * 10) : ℚ) / 10

/-- Model of create_review: 404 if the product is absent, 400 if this user already
reviewed it; otherwise insert the review, re-read all reviews for the
product, and set the product rating to the rounded mean and review_count to
the count. -/
def create_review (st : DBState) (product_id : String) (rd : ReviewCreate)
    (user : UserView) (review_id nowIso : String) :
    DBState × Except HErr ReviewDoc :=
  match st.products.find? (fun p => p.id == product_id) with
  | none => (st, Except.error ⟨404, "Product not found"⟩)
  | some _ =>
    match st.reviews.find? (fun r => r.product_id == product_id && r.user_id == user.id) with
    | some _ => (st, Except.error ⟨400, "You already reviewed this product"⟩)
    | none =>
      let review : ReviewDoc :=
        { id := review_id, product_id := product_id, user_id := user.id,
          user_name := user.name, rating := rd.rating, comment := rd.comment,
          created_at := nowIso }
      let reviews1 := st.reviews ++ [review]
      let prodReviews := reviewsFor reviews1 product_id
      let avg : ℚ := ((prodReviews.map (fun r => (r.rating : ℚ))).sum) / (prodReviews.length : ℚ)
      ({ st with
          reviews := reviews1,
          products := (updateFirst (fun p => p.id == product_id)
            (fun p => { p with rating := pyRound1 avg,
                               review_count := prodReviews.length }) st.products) },
       Except.ok review)

/-- The cart merge key: two items match when product_id, size and color all
agree (the three comparisons in `add_to_cart`). -/
def sameKey (a b : CartItem) : Bool :=
  a.product_id == b.product_id && a.size == b.size && a.color == b.color

/-- The (product, size, color) key of a line item. -/
def keyOf (i : CartItem) : String × String × String :=
  (i.product_id, i.size, i.color)

/-- The for-loop of `add_to_cart`: bump the quantity of the first line item
matching the key of the new item, or append the item if none matches. -/
def mergeItem (item : CartItem) : List CartItem → List CartItem
  | [] => [item]
  | x :: xs =>
    if sameKey x item then { x with quantity := x.quantity + item.quantity } :: xs
    else x :: mergeItem item xs

/-- Model of add_to_cart: create a singleton cart when the user has none, else
merge the item into the existing cart and refresh its timestamp.  Always
responds "Item added to cart". -/
def add_to_cart (st : DBState) (uid : String) (item : CartItem)
    (now : String) : DBState × String :=
  match st.carts.find? (fun c => c.user_id == uid) with
  | none =>
    ({ st with carts := st.carts ++ [{ user_id := uid, items := [item], updated_at := now }] },
     "Item added to cart")
  | some _ =>
    ({ st with carts := (updateFirst (fun c => c.user_id == uid)
        (fun c => { c with items := mergeItem item c.items, updated_at := now }) st.carts) },
     "Item added to cart")

/-- The for-loop of `update_cart_item`: overwrite the quantity of the first
line item matching the key; leave the list alone when none matches. -/
def setQtyFirst (pid size color : String) (q : Int) : List CartItem → List CartItem
  | [] => []
  | x :: xs =>
    if x.product_id == pid && x.size == size && x.color == color then
      { x with quantity := q } :: xs
    else x :: setQtyFirst pid size color q xs

/-- Model of update_cart_item: 404 when the user has no cart; otherwise overwrite
the quantity of the matching item (absolute) and write the items back with a
fresh timestamp — also when no item matched. -/
def update_cart_item (st : DBState) (uid product_id : String) (quantity : Int)
    (size color : String) (now : String) : DBState × Except HErr String :=
  match st.carts.find? (fun c => c.user_id == uid) with
  | none => (st, Except.error ⟨404, "Cart not found"⟩)
  | some _ =>
    ({ st with carts := (updateFirst (fun c => c.user_id == uid)
        (fun c => { c with items := setQtyFirst product_id size color quantity c.items,
                           updated_at := now }) st.carts) },
     Except.ok "Cart updated")

/-- Model of remove_from_cart: 404 when the user has no cart; otherwise keep only
the line items whose key differs and write them back. -/
def remove_from_cart (st : DBState) (uid product_id : String)
    (size color : String) (now : String) : DBState × Except HErr String :=
  match st.carts.find? (fun c => c.user_id == uid) with
  | none => (st, Except.error ⟨404, "Cart not found"⟩)
  | some _ =>
    ({ st with carts := (updateFirst (fun c => c.user_id == uid)
        (fun c => { c with
          items := c.items.filter
            (fun i => !(i.product_id == product_id && i.size == size && i.color == color)),
          updated_at := now }) st.carts) },
     Except.ok "Item removed from cart")

/-- Model of add_to_wishlist: append the product id to the wishlist of the
authenticated user unless already present; always succeeds. -/
def add_to_wishlist (st : DBState) (user : UserView) (product_id : String) :
    DBState × String :=
  if user.wishlist.contains product_id then (st, "Added to wishlist")
  else
    ({ st with users := (updateFirst (fun u => u.id == user.id)
        (fun u => { u with wishlist := user.wishlist ++ [product_id] }) st.users) },
     "Added to wishlist")

/-- Model of remove_from_wishlist: the Python list remove drops the first
occurrence of the product id when present; always succeeds. -/
def remove_from_wishlist (st : DBState) (user : UserView) (product_id : String) :
    DBState × String :=
  if user.wishlist.contains product_id then
    ({ st with users := (updateFirst (fun u => u.id == user.id)
        (fun u => { u with wishlist := user.wishlist.erase product_id }) st.users) },
     "Removed from wishlist")
  else (st, "Removed from wishlist")

/-- Model of create_order: build the order from the caller-supplied body
with a fresh id, denormalized caller name and email and status "pending",
insert it, then delete the cart of the user. -/
def create_order (st : DBState) (user : UserView) (od : OrderCreate)
    (order_id nowIso : String) : DBState × OrderDoc :=
  let order : OrderDoc :=
    { id := order_id, user_id := user.id, user_name := user.name,
      user_email := user.email, items := od.items,
      total_amount := od.total_amount, shipping_address := od.shipping_address,
      status := "pending", created_at := nowIso }
  ({ st with orders := st.orders ++ [order],
             carts := removeFirst (fun c => c.user_id == user.id) st.carts },
   order)

/-- The stored item list of the cart of the given user, if any. -/
def userCartItems (st : DBState) (uid : String) : Option (List CartItem) :=
  (st.carts.find? (fun c => c.user_id == uid)).map (fun c => c.items)

/-- The cart invariant: at most one line item per (product, size, color). -/
def NoDupKeys (l : List CartItem) : Prop :=
  (l.map keyOf).Nodup

/-! ### Generic lemmas about the document-store list operations -/

theorem find?_updateFirst (p : α → Bool) (f : α → α) (hf : ∀ a, p (f a) = p a)
    (l : List α) : (updateFirst p f l).find? p = (l.find? p).map f := by
  induction l with
  | nil => rfl
  | cons x xs ih =>
    cases h : p x with
    | true =>
      simp [updateFirst, h, List.find?_cons_of_pos, hf x]
    | false =>
      simp [updateFirst, h, List.find?_cons_of_neg, ih]

theorem updateFirst_length (p : α → Bool) (f : α → α) (l : List α) :
    (updateFirst p f l).length = l.length := by
  induction l with
  | nil => rfl
  | cons x xs ih =>
    cases h : p x <;> simp [updateFirst, h, ih]

theorem find?_append_none (p : α → Bool) (l1 l2 : List α)
    (h : l1.find? p = none) : (l1 ++ l2).find? p = l2.find? p := by
  simp [List.find?_append, h]

theorem updateFirst_append_none (p : α → Bool) (f : α → α) (l1 l2 : List α)
    (h : l1.find? p = none) :
    updateFirst p f (l1 ++ l2) = l1 ++ updateFirst p f l2 := by
  induction l1 with
  | nil => rfl
  | cons x xs ih =>
    cases hx : p x with
    | true => simp [List.find?_cons_of_pos, hx] at h
    | false =>
      rw [List.find?_cons_of_neg _ (by simp [hx])] at h
      simp [updateFirst, hx, ih h]

theorem find?_removeFirst_of_le_one (p : α → Bool) (l : List α)
    (h : (l.filter p).length ≤ 1) : (removeFirst p l).find? p = none := by
  induction l with
  | nil => rfl
  | cons x xs ih =>
    cases hx : p x with
    | true =>
      rw [List.filter_cons_of_pos (by simp [hx])] at h
      simp only [List.length_cons] at h
      have h0 : (xs.filter p).length = 0 := by omega
      have h1 : xs.filter p = [] := List.length_eq_zero.mp h0
      have hall : ∀ y ∈ xs, ¬ p y = true := by
        intro y hy hp
        have : y ∈ xs.filter p := List.mem_filter.mpr ⟨hy, hp⟩
        simp [h1] at this
      simp [removeFirst, hx, List.find?_eq_none.mpr hall]
    | false =>
      rw [List.filter_cons_of_neg (by simp [hx])] at h
      simp [removeFirst, hx, List.find?_cons, ih h]

/-! ### Lemmas about the cart merge loop -/

theorem keyOf_eq_iff_sameKey (a b : CartItem) :
    sameKey a b = true ↔ keyOf a = keyOf b := by
  simp [sameKey, keyOf, Bool.and_eq_true, Prod.ext_iff, and_assoc]

theorem mergeItem_of_no_match (item : CartItem) (l : List CartItem)
    (h : ∀ x ∈ l, sameKey x item = false) : mergeItem item l = l ++ [item] := by
  induction l with
  | nil => rfl
  | cons x xs ih =>
    have hx := h x (by simp)
    simp [mergeItem, hx, ih (fun y hy => h y (by simp [hy]))]

theorem mergeItem_of_match (item : CartItem) (l : List CartItem)
    (h : l.any (fun x => sameKey x item) = true) :
    mergeItem item l =
      updateFirst (fun x => sameKey x item)
        (fun x => { x with quantity := x.quantity + item.quantity }) l := by
  induction l with
  | nil => simp at h
  | cons x xs ih =>
    cases hx : sameKey x item with
    | true => simp [mergeItem, updateFirst, hx]
    | false =>
      simp only [List.any_cons, hx, Bool.false_or] at h
      simp [mergeItem, updateFirst, hx, ih h]

theorem mem_keys_mergeItem (item : CartItem) (l : List CartItem)
    (a : String × String × String) (h : a ∈ (mergeItem item l).map keyOf) :
    a ∈ l.map keyOf ∨ a = keyOf item := by
  induction l with
  | nil =>
    refine Or.inr ?_
    simp only [mergeItem, List.map_cons, List.map_nil, List.mem_singleton] at h
    exact h
  | cons x xs ih =>
    cases hx : sameKey x item with
    | true =>
      have e : mergeItem item (x :: xs) =
          { x with quantity := x.quantity + item.quantity } :: xs := by
        simp [mergeItem, hx]
      rw [e, List.map_cons] at h
      rcases List.mem_cons.mp h with h | h
      · exact Or.inl (by rw [List.map_cons]; exact List.mem_cons.mpr (Or.inl h))
      · exact Or.inl (by rw [List.map_cons]; exact List.mem_cons.mpr (Or.inr h))
    | false =>
      have e : mergeItem item (x :: xs) = x :: mergeItem item xs := by
        simp [mergeItem, hx]
      rw [e, List.map_cons] at h
      rcases List.mem_cons.mp h with h | h
      · exact Or.inl (by rw [List.map_cons]; exact List.mem_cons.mpr (Or.inl h))
      · rcases ih h with h2 | h2
        · exact Or.inl (by rw [List.map_cons]; exact List.mem_cons.mpr (Or.inr h2))
        · exact Or.inr h2

theorem nodupKeys_mergeItem (item : CartItem) (l : List CartItem)
    (h : NoDupKeys l) : NoDupKeys (mergeItem item l) := by
  induction l with
  | nil => simp [NoDupKeys, mergeItem]
  | cons x xs ih =>
    simp only [NoDupKeys, List.map_cons, List.nodup_cons] at h
    cases hx : sameKey x item with
    | true =>
      have : mergeItem item (x :: xs) =
          { x with quantity := x.quantity + item.quantity } :: xs := by
        simp [mergeItem, hx]
      rw [NoDupKeys, this]
      simp only [List.map_cons, List.nodup_cons]
      exact ⟨by simpa [keyOf] using h.1, h.2⟩
    | false =>
      have : mergeItem item (x :: xs) = x :: mergeItem item xs := by
        simp [mergeItem, hx]
      rw [NoDupKeys, this]
      simp only [List.map_cons, List.nodup_cons]
      refine ⟨fun hmem => ?_, ih h.2⟩
      rcases mem_keys_mergeItem item xs _ hmem with h2 | h2
      · exact h.1 h2
      · have hne : ¬ sameKey x item = true := by simp [hx]
        rw [keyOf_eq_iff_sameKey] at hne
        exact hne h2

theorem map_keyOf_setQtyFirst (pid size color : String) (q : Int)
    (l : List CartItem) :
    (setQtyFirst pid size color q l).map keyOf = l.map keyOf := by
  induction l with
  | nil => rfl
  | cons x xs ih =>
    cases hx : x.product_id == pid && x.size == size && x.color == color with
    | true => simp [setQtyFirst, hx, keyOf]
    | false => simp [setQtyFirst, hx, ih]

theorem setQtyFirst_of_no_match (pid size color : String) (q : Int)
    (l : List CartItem)
    (h : ∀ x ∈ l, (x.product_id == pid && x.size == size && x.color == color) = false) :
    setQtyFirst pid size color q l = l := by
  induction l with
  | nil => rfl
  | cons x xs ih =>
    have hx := h x (by simp)
    simp [setQtyFirst, hx, ih (fun y hy => h y (by simp [hy]))]

/-! ### Claim theorems -/

/-- C5: a token issued by create_token carries the user id and an absolute
expiry exactly 7 days (in seconds) after issuance; at any time strictly
before that expiry, get_current_user on the token resolves the same user,
and at any time strictly after it, it fails with the Token expired error,
which is distinct from the Invalid token error. -/
theorem C5_token_lifecycle (secret uid : String) (tIssue : Nat)
    (users : List UserDoc) (u : UserDoc)
    (hu : users.find? (fun x => x.id == uid) = some u) :
    (create_token secret uid tIssue).payload.user_id = uid ∧
    (create_token secret uid tIssue).payload.exp = tIssue + 7 * 24 * 60 * 60 ∧
    (∀ now, now < tIssue + 7 * 24 * 60 * 60 →
      get_current_user secret now users (create_token secret uid tIssue) =
        Except.ok u.toView) ∧
    (∀ now, tIssue + 7 * 24 * 60 * 60 < now →
      get_current_user secret now users (create_token secret uid tIssue) =
        Except.error ⟨401, "Token expired"⟩) ∧
    (⟨401, "Token expired"⟩ : HErr) ≠ ⟨401, "Invalid token"⟩ := by
  refine ⟨rfl, rfl, ?_, ?_, by decide⟩
  · intro now hnow
    have hexp : ¬ (tIssue + 604800 < now) := by omega
    simp [get_current_user, jwt_decode, create_token, mkSig, hexp, hu]
  · intro now hnow
    have hexp : tIssue + 604800 < now := by omega
    simp [get_current_user, jwt_decode, create_token, mkSig, hexp]

/-- C5 witness: a token issued at time 0 authenticates its user at time 100
and is expired at time 700000. -/
theorem C5_token_lifecycle_witness :
    get_current_user "k" 100
        [⟨"u1", "Ann", "ann@shop.io", ("salt", "pw"), false, [], "t0"⟩]
        (create_token "k" "u1" 0) =
      Except.ok ⟨"u1", "Ann", "ann@shop.io", false, [], "t0"⟩ ∧
    get_current_user "k" 700000
        [⟨"u1", "Ann", "ann@shop.io", ("salt", "pw"), false, [], "t0"⟩]
        (create_token "k" "u1" 0) =
      Except.error ⟨401, "Token expired"⟩ :=
  ⟨(C5_token_lifecycle "k" "u1" 0
      [⟨"u1", "Ann", "ann@shop.io", ("salt", "pw"), false, [], "t0"⟩]
      ⟨"u1", "Ann", "ann@shop.io", ("salt", "pw"), false, [], "t0"⟩
      (by decide)).2.2.1 100 (by decide),
   (C5_token_lifecycle "k" "u1" 0
      [⟨"u1", "Ann", "ann@shop.io", ("salt", "pw"), false, [], "t0"⟩]
      ⟨"u1", "Ann", "ann@shop.io", ("salt", "pw"), false, [], "t0"⟩
      (by decide)).2.2.2.1 700000 (by decide)⟩

/-- C6: both login failure causes — email absent, and email present with a
non-verifying password — produce the same observable error, status 401 with
detail Invalid credentials. -/
theorem C6_login_indistinguishable (secret : String) (st1 st2 : DBState)
    (email pw1 pw2 : String) (now1 now2 : Nat) (u : UserDoc)
    (h1 : st1.users.find? (fun x => x.email == email) = none)
    (h2 : st2.users.find? (fun x => x.email == email) = some u)
    (h3 : verify_password pw2 u.password = false) :
    login secret st1 email pw1 now1 = Except.error ⟨401, "Invalid credentials"⟩ ∧
    login secret st2 email pw2 now2 = Except.error ⟨401, "Invalid credentials"⟩ := by
  constructor
  · simp [login, h1]
  · simp [login, h2, h3]

/-- C6 witness: a login against an empty user store and a login with a wrong
password against a one-user store both return 401 Invalid credentials. -/
theorem C6_login_indistinguishable_witness :
    login "k" ⟨[], [], [], [], []⟩ "ann@shop.io" "guess" 0 =
      Except.error ⟨401, "Invalid credentials"⟩ ∧
    login "k" ⟨[⟨"u1", "Ann", "ann@shop.io", ("salt", "pw"), false, [], "t0"⟩], [], [], [], []⟩
        "ann@shop.io" "wrong" 0 =
      Except.error ⟨401, "Invalid credentials"⟩ :=
  C6_login_indistinguishable "k" ⟨[], [], [], [], []⟩
    ⟨[⟨"u1", "Ann", "ann@shop.io", ("salt", "pw"), false, [], "t0"⟩], [], [], [], []⟩
    "ann@shop.io" "guess" "wrong" 0 0
    ⟨"u1", "Ann", "ann@shop.io", ("salt", "pw"), false, [], "t0"⟩
    (by decide) (by decide) (by decide)

/-- C7: register fails with 400 Email already registered exactly when the
email is already present, leaving the store unchanged in that case;
otherwise it appends one new user with admin false, empty wishlist and the
salted password hash and returns a token plus the public fields; and after
a successful registration, a second registration with the same email always
fails with the duplicate-email error. -/
theorem C7_register_duplicate_email (secret : String) (st : DBState)
    (name email pw uid salt : String) (now : Nat) (nowIso : String) :
    ((register secret st name email pw uid salt now nowIso).2 =
        Except.error ⟨400, "Email already registered"⟩ ↔
      (st.users.find? (fun x => x.email == email)).isSome) ∧
    ((st.users.find? (fun x => x.email == email)).isSome →
      (register secret st name email pw uid salt now nowIso).1 = st) ∧
    (st.users.find? (fun x => x.email == email) = none →
      register secret st name email pw uid salt now nowIso =
        ({ st with users := st.users ++
            [{ id := uid, name := name, email := email,
               password := hash_password salt pw, is_admin := false,
               wishlist := [], created_at := nowIso }] },
         Except.ok (create_token secret uid now, ⟨uid, name, email, false⟩))) ∧
    (∀ st2 tok pu,
      register secret st name email pw uid salt now nowIso = (st2, Except.ok (tok, pu)) →
      ∀ name2 pw2 uid2 salt2 now2 nowIso2,
        (register secret st2 name2 email pw2 uid2 salt2 now2 nowIso2).2 =
          Except.error ⟨400, "Email already registered"⟩) := by
  cases hfind : st.users.find? (fun x => x.email == email) with
  | some v =>
    refine ⟨?_, ?_, ?_, ?_⟩
    · simp [register, hfind]
    · intro _
      simp [register, hfind]
    · intro h
      exact Option.noConfusion h
    · intro st2 tok pu heq
      simp [register, hfind] at heq
  | none =>
    refine ⟨?_, ?_, ?_, ?_⟩
    · simp [register, hfind]
    · intro h
      simp [hfind] at h
    · intro _
      simp [register, hfind]
    intro st2 tok pu heq
    simp only [register, hfind] at heq
    have hst2 := congrArg Prod.fst heq
    simp only at hst2
    have hfind2 : st2.users.find? (fun x => x.email == email) =
        some { id := uid, name := name, email := email,
               password := hash_password salt pw, is_admin := false,
               wishlist := [], created_at := nowIso } := by
      rw [← hst2]
      rw [find?_append_none _ _ _ hfind]
      simp
    simp [register, hfind2]

/-- C7 witness: against an empty store, registering succeeds and produces
the expected user document, and re-registering the same email fails with
the duplicate-email error. -/
theorem C7_register_duplicate_email_witness :
    register "k" ⟨[], [], [], [], []⟩ "Ann" "ann@shop.io" "pw" "u1" "salt" 0 "t0" =
      (⟨[⟨"u1", "Ann", "ann@shop.io", ("salt", "pw"), false, [], "t0"⟩], [], [], [], []⟩,
       Except.ok (create_token "k" "u1" 0, ⟨"u1", "Ann", "ann@shop.io", false⟩)) ∧
    (register "k" ⟨[⟨"u1", "Ann", "ann@shop.io", ("salt", "pw"), false, [], "t0"⟩], [], [], [], []⟩
        "Ann" "ann@shop.io" "pw2" "u2" "salt2" 5 "t1").2 =
      Except.error ⟨400, "Email already registered"⟩ :=
  ⟨(C7_register_duplicate_email "k" ⟨[], [], [], [], []⟩ "Ann" "ann@shop.io" "pw" "u1" "salt" 0 "t0").2.2.1
      (by decide),
   (C7_register_duplicate_email "k"
      ⟨[⟨"u1", "Ann", "ann@shop.io", ("salt", "pw"), false, [], "t0"⟩], [], [], [], []⟩
      "Ann" "ann@shop.io" "pw2" "u2" "salt2" 5 "t1").1.mpr (by decide)⟩

/-- Wishlists stay duplicate-free under the two mutations: appending an
absent id keeps a duplicate-free list duplicate-free, and erasing always
does; since registration creates the wishlist empty, every reachable
wishlist is duplicate-free. -/
theorem wishlist_nodup_preserved (w : List String) (pid : String)
    (h : w.Nodup) :
    (pid ∉ w → (w ++ [pid]).Nodup) ∧ (w.erase pid).Nodup := by
  constructor
  · intro hm
    simp [List.nodup_append, h, hm]
  · exact h.erase pid

/-- C10: wishlist mutation is idempotent and total: adding an id already
present is a success no-op, removing an absent id is a success no-op,
adding twice equals adding once, and (with the wishlist duplicate-free, as
every reachable wishlist is) removing twice equals removing once. -/
theorem C10_wishlist_idempotent (st : DBState) (u : UserDoc) (pid : String)
    (hu : st.users.find? (fun x => x.id == u.id) = some u) :
    (pid ∈ u.wishlist →
      add_to_wishlist st u.toView pid = (st, "Added to wishlist")) ∧
    (pid ∉ u.wishlist →
      remove_from_wishlist st u.toView pid = (st, "Removed from wishlist")) ∧
    (∀ u2, (add_to_wishlist st u.toView pid).1.users.find? (fun x => x.id == u.id) = some u2 →
      (add_to_wishlist (add_to_wishlist st u.toView pid).1 u2.toView pid).1 =
        (add_to_wishlist st u.toView pid).1) ∧
    (u.wishlist.Nodup →
      ∀ u2, (remove_from_wishlist st u.toView pid).1.users.find? (fun x => x.id == u.id) = some u2 →
        (remove_from_wishlist (remove_from_wishlist st u.toView pid).1 u2.toView pid).1 =
          (remove_from_wishlist st u.toView pid).1) := by
  refine ⟨?_, ?_, ?_, ?_⟩
  · intro h
    simp [add_to_wishlist, UserDoc.toView, h]
  · intro h
    simp [remove_from_wishlist, UserDoc.toView, h]
  · intro u2 h2
    by_cases hc : pid ∈ u.wishlist
    · have e1 : add_to_wishlist st u.toView pid = (st, "Added to wishlist") := by
        simp [add_to_wishlist, UserDoc.toView, hc]
      rw [e1] at h2 ⊢
      have hu2 : u2 = u := by
        rw [hu] at h2
        exact (Option.some.inj h2).symm
      subst hu2
      simp [add_to_wishlist, UserDoc.toView, hc]
    · have e1 : (add_to_wishlist st u.toView pid).1.users =
          updateFirst (fun x => x.id == u.id)
            (fun x => { x with wishlist := u.wishlist ++ [pid] }) st.users := by
        simp [add_to_wishlist, UserDoc.toView, hc]
      have hfind2 : (add_to_wishlist st u.toView pid).1.users.find? (fun x => x.id == u.id) =
          some { u with wishlist := u.wishlist ++ [pid] } := by
        rw [e1, find?_updateFirst (fun x => x.id == u.id)
          (fun x => { x with wishlist := u.wishlist ++ [pid] }) (fun a => rfl) st.users, hu]
        rfl
      have hu2 : u2 = { u with wishlist := u.wishlist ++ [pid] } :=
        Option.some.inj (h2.symm.trans hfind2)
      subst hu2
      have hc2 : pid ∈ u.wishlist ++ [pid] := by simp
      simp [add_to_wishlist, UserDoc.toView, hc2]
  · intro hnd u2 h2
    by_cases hc : pid ∈ u.wishlist
    · have e1 : (remove_from_wishlist st u.toView pid).1.users =
          updateFirst (fun x => x.id == u.id)
            (fun x => { x with wishlist := u.wishlist.erase pid }) st.users := by
        simp [remove_from_wishlist, UserDoc.toView, hc]
      have hfind2 : (remove_from_wishlist st u.toView pid).1.users.find? (fun x => x.id == u.id) =
          some { u with wishlist := u.wishlist.erase pid } := by
        rw [e1, find?_updateFirst (fun x => x.id == u.id)
          (fun x => { x with wishlist := u.wishlist.erase pid }) (fun a => rfl) st.users, hu]
        rfl
      have hu2 : u2 = { u with wishlist := u.wishlist.erase pid } :=
        Option.some.inj (h2.symm.trans hfind2)
      subst hu2
      have hc2 : pid ∉ u.wishlist.erase pid := hnd.not_mem_erase
      simp [remove_from_wishlist, UserDoc.toView, hc2]
    · have e1 : remove_from_wishlist st u.toView pid = (st, "Removed from wishlist") := by
        simp [remove_from_wishlist, UserDoc.toView, hc]
      rw [e1] at h2 ⊢
      have hu2 : u2 = u := by
        rw [hu] at h2
        exact (Option.some.inj h2).symm
      subst hu2
      simp [remove_from_wishlist, UserDoc.toView, hc]

/-- C10 witness: with the product already wishlisted, adding it again
returns success and leaves the store as it was. -/
theorem C10_wishlist_idempotent_witness :
    add_to_wishlist
        ⟨[⟨"u1", "Ann", "ann@shop.io", ("salt", "pw"), false, ["p1"], "t0"⟩], [], [], [], []⟩
        (UserDoc.toView ⟨"u1", "Ann", "ann@shop.io", ("salt", "pw"), false, ["p1"], "t0"⟩)
        "p1" =
      (⟨[⟨"u1", "Ann", "ann@shop.io", ("salt", "pw"), false, ["p1"], "t0"⟩], [], [], [], []⟩,
       "Added to wishlist") :=
  (C10_wishlist_idempotent
      ⟨[⟨"u1", "Ann", "ann@shop.io", ("salt", "pw"), false, ["p1"], "t0"⟩], [], [], [], []⟩
      ⟨"u1", "Ann", "ann@shop.io", ("salt", "pw"), false, ["p1"], "t0"⟩
      "p1" (by decide)).1 (by decide)

/-- C8: a successful order creation persists an order carrying the supplied
fresh identifier, the denormalized caller name and email, status pending,
and the caller-supplied items, total and shipping address unmodified; the
new order is retrievable under its id, and afterwards the user has no
stored cart, whatever the submitted items were. -/
theorem C8_place_order (st : DBState) (user : UserView) (od : OrderCreate)
    (order_id nowIso : String)
    (hfresh : ∀ o ∈ st.orders, (o.id == order_id) = false)
    (hone : (st.carts.filter (fun c => c.user_id == user.id)).length ≤ 1) :
    (create_order st user od order_id nowIso).2 =
      { id := order_id, user_id := user.id, user_name := user.name,
        user_email := user.email, items := od.items,
        total_amount := od.total_amount, shipping_address := od.shipping_address,
        status := "pending", created_at := nowIso } ∧
    (create_order st user od order_id nowIso).1.orders =
      st.orders ++ [(create_order st user od order_id nowIso).2] ∧
    (create_order st user od order_id nowIso).1.orders.find? (fun o => o.id == order_id) =
      some (create_order st user od order_id nowIso).2 ∧
    (create_order st user od order_id nowIso).1.carts.find? (fun c => c.user_id == user.id) =
      none := by
  refine ⟨rfl, rfl, ?_, ?_⟩
  · have hnone : st.orders.find? (fun o => o.id == order_id) = none := by
      rw [List.find?_eq_none]
      intro o ho
      simp [hfresh o ho]
    have e : (create_order st user od order_id nowIso).1.orders =
        st.orders ++ [(create_order st user od order_id nowIso).2] := rfl
    rw [e, find?_append_none _ _ _ hnone]
    simp [create_order]
  · exact find?_removeFirst_of_le_one _ _ hone

/-- C8 witness: placing an order against a store holding one cart for the
user yields the expected pending order and deletes the cart. -/
theorem C8_place_order_witness :
    (create_order
        ⟨[], [], [], [⟨"u1", [⟨"p1", 2, "M", "red"⟩], "t0"⟩], []⟩
        ⟨"u1", "Ann", "ann@shop.io", false, [], "t0"⟩
        ⟨[⟨"p1", "Tee", 2, "M", "red", 10⟩], 20, [("city", "X")]⟩
        "o1" "t1").2 =
      { id := "o1", user_id := "u1", user_name := "Ann",
        user_email := "ann@shop.io", items := [⟨"p1", "Tee", 2, "M", "red", 10⟩],
        total_amount := 20, shipping_address := [("city", "X")],
        status := "pending", created_at := "t1" } ∧
    (create_order
        ⟨[], [], [], [⟨"u1", [⟨"p1", 2, "M", "red"⟩], "t0"⟩], []⟩
        ⟨"u1", "Ann", "ann@shop.io", false, [], "t0"⟩
        ⟨[⟨"p1", "Tee", 2, "M", "red", 10⟩], 20, [("city", "X")]⟩
        "o1" "t1").1.carts.find? (fun c => c.user_id == "u1") = none :=
  ⟨(C8_place_order
      ⟨[], [], [], [⟨"u1", [⟨"p1", 2, "M", "red"⟩], "t0"⟩], []⟩
      ⟨"u1", "Ann", "ann@shop.io", false, [], "t0"⟩
      ⟨[⟨"p1", "Tee", 2, "M", "red", 10⟩], 20, [("city", "X")]⟩
      "o1" "t1" (by decide) (by decide)).1,
   (C8_place_order
      ⟨[], [], [], [⟨"u1", [⟨"p1", 2, "M", "red"⟩], "t0"⟩], []⟩
      ⟨"u1", "Ann", "ann@shop.io", false, [], "t0"⟩
      ⟨[⟨"p1", "Tee", 2, "M", "red", 10⟩], 20, [("city", "X")]⟩
      "o1" "t1" (by decide) (by decide)).2.2.2⟩

/-- C4 counterexample: with a cart whose single line item does not match
the requested key, update_cart_item returns success and leaves the item
list alone, but the stored cart document is nevertheless changed — its
updated_at timestamp is refreshed — so the cart is not left unchanged. -/
theorem C4_counterexample :
    (update_cart_item ⟨[], [], [], [⟨"u", [⟨"p1", 1, "M", "red"⟩], "t0"⟩], []⟩
        "u" "p2" 5 "M" "red" "t1").2 = Except.ok "Cart updated" ∧
    ([(⟨"p1", 1, "M", "red"⟩ : CartItem)].all
      (fun x => !(x.product_id == "p2" && x.size == "M" && x.color == "red"))) = true ∧
    (update_cart_item ⟨[], [], [], [⟨"u", [⟨"p1", 1, "M", "red"⟩], "t0"⟩], []⟩
        "u" "p2" 5 "M" "red" "t1").1.carts.find? (fun d => d.user_id == "u") =
      some ⟨"u", [⟨"p1", 1, "M", "red"⟩], "t1"⟩ ∧
    (some (⟨"u", [⟨"p1", 1, "M", "red"⟩], "t1"⟩ : CartDoc) ≠
      some (⟨"u", [⟨"p1", 1, "M", "red"⟩], "t0"⟩ : CartDoc)) ∧
    (⟨[], [], [], [⟨"u", [⟨"p1", 1, "M", "red"⟩], "t0"⟩], []⟩ : DBState).carts.find?
        (fun d => d.user_id == "u") =
      some ⟨"u", [⟨"p1", 1, "M", "red"⟩], "t0"⟩ := by
  refine ⟨rfl, by decide, by decide, by decide, by decide⟩

/-- C4 (amended): update_cart_item on an existing cart with no line item
matching the key returns success and leaves the item list unchanged; the
stored cart differs from the original only in its refreshed updated_at
timestamp. -/
theorem C4_update_noop_amended (st : DBState) (uid pid : String) (q : Int)
    (size color now : String) (c : CartDoc)
    (hc : st.carts.find? (fun d => d.user_id == uid) = some c)
    (hmiss : ∀ x ∈ c.items,
      (x.product_id == pid && x.size == size && x.color == color) = false) :
    (update_cart_item st uid pid q size color now).2 = Except.ok "Cart updated" ∧
    userCartItems (update_cart_item st uid pid q size color now).1 uid = some c.items ∧
    (update_cart_item st uid pid q size color now).1.carts.find? (fun d => d.user_id == uid) =
      some { c with updated_at := now } := by
  have e1 : (update_cart_item st uid pid q size color now).1.carts =
      updateFirst (fun d => d.user_id == uid)
        (fun d => { d with items := setQtyFirst pid size color q d.items,
                           updated_at := now }) st.carts := by
    simp [update_cart_item, hc]
  have e2 : (update_cart_item st uid pid q size color now).1.carts.find?
      (fun d => d.user_id == uid) =
      some { c with items := setQtyFirst pid size color q c.items, updated_at := now } := by
    rw [e1, find?_updateFirst (fun d => d.user_id == uid)
      (fun d => { d with items := setQtyFirst pid size color q d.items, updated_at := now })
      (fun a => rfl) st.carts, hc]
    rfl
  have e3 : setQtyFirst pid size color q c.items = c.items :=
    setQtyFirst_of_no_match pid size color q c.items hmiss
  refine ⟨by simp [update_cart_item, hc], ?_, ?_⟩
  · rw [userCartItems, e2, e3]
    rfl
  · rw [e2, e3]

/-- C4 amended witness: the concrete no-match update succeeds, keeps the
single line item, and stores the cart with the new timestamp. -/
theorem C4_update_noop_amended_witness :
    (update_cart_item ⟨[], [], [], [⟨"u", [⟨"p1", 1, "M", "red"⟩], "t0"⟩], []⟩
        "u" "p2" 5 "M" "red" "t1").2 = Except.ok "Cart updated" ∧
    userCartItems (update_cart_item ⟨[], [], [], [⟨"u", [⟨"p1", 1, "M", "red"⟩], "t0"⟩], []⟩
        "u" "p2" 5 "M" "red" "t1").1 "u" = some [⟨"p1", 1, "M", "red"⟩] ∧
    (update_cart_item ⟨[], [], [], [⟨"u", [⟨"p1", 1, "M", "red"⟩], "t0"⟩], []⟩
        "u" "p2" 5 "M" "red" "t1").1.carts.find? (fun d => d.user_id == "u") =
      some ⟨"u", [⟨"p1", 1, "M", "red"⟩], "t1"⟩ :=
  C4_update_noop_amended ⟨[], [], [], [⟨"u", [⟨"p1", 1, "M", "red"⟩], "t0"⟩], []⟩
    "u" "p2" 5 "M" "red" "t1" ⟨"u", [⟨"p1", 1, "M", "red"⟩], "t0"⟩
    (by decide) (by decide)

/-- Decidability of the cart key invariant. -/
instance instDecidableNoDupKeys (l : List CartItem) : Decidable (NoDupKeys l) :=
  inferInstanceAs (Decidable (l.map keyOf).Nodup)

/-- The carts collection after addItem when the user had no cart. -/
theorem add_to_cart_carts_none (st : DBState) (uid : String) (item : CartItem)
    (now : String) (h : st.carts.find? (fun d => d.user_id == uid) = none) :
    (add_to_cart st uid item now).1.carts = st.carts ++ [⟨uid, [item], now⟩] := by
  simp [add_to_cart, h]

/-- The carts collection after addItem when the user had a cart. -/
theorem add_to_cart_carts_found (st : DBState) (uid : String) (item : CartItem)
    (now : String) (c : CartDoc)
    (h : st.carts.find? (fun d => d.user_id == uid) = some c) :
    (add_to_cart st uid item now).1.carts =
      updateFirst (fun d => d.user_id == uid)
        (fun d => { d with items := mergeItem item d.items, updated_at := now })
        st.carts := by
  simp [add_to_cart, h]

/-- The stored item list after addItem on an existing cart. -/
theorem userCartItems_add_found (st : DBState) (uid : String) (item : CartItem)
    (now : String) (c : CartDoc)
    (h : st.carts.find? (fun d => d.user_id == uid) = some c) :
    userCartItems (add_to_cart st uid item now).1 uid = some (mergeItem item c.items) := by
  rw [userCartItems, add_to_cart_carts_found st uid item now c h,
    find?_updateFirst (fun d => d.user_id == uid)
      (fun d => { d with items := mergeItem item d.items, updated_at := now })
      (fun a => rfl) st.carts, h]
  rfl

/-- C2: addItem creates a singleton cart when the user has none; on an
existing cart it appends the item when no line item matches its
(product, size, color) key and otherwise bumps the quantity of the first
matching line item without adding one; in particular two adds of the same
key from an empty state leave one line item with the summed quantity, and
two adds of different keys leave two line items. -/
theorem C2_cart_addItem (st : DBState) (uid : String) (item : CartItem)
    (now : String) :
    (st.carts.find? (fun c => c.user_id == uid) = none →
      userCartItems (add_to_cart st uid item now).1 uid = some [item]) ∧
    (∀ c, st.carts.find? (fun c => c.user_id == uid) = some c →
      (∀ x ∈ c.items, sameKey x item = false) →
      userCartItems (add_to_cart st uid item now).1 uid = some (c.items ++ [item])) ∧
    (∀ c, st.carts.find? (fun c => c.user_id == uid) = some c →
      c.items.any (fun x => sameKey x item) = true →
      userCartItems (add_to_cart st uid item now).1 uid =
        some (updateFirst (fun x => sameKey x item)
          (fun x => { x with quantity := x.quantity + item.quantity }) c.items) ∧
      (userCartItems (add_to_cart st uid item now).1 uid).map List.length =
        some c.items.length) ∧
    (st.carts.find? (fun c => c.user_id == uid) = none →
      ∀ q2 now2, userCartItems
          (add_to_cart (add_to_cart st uid item now).1 uid
            { item with quantity := q2 } now2).1 uid =
        some [{ item with quantity := item.quantity + q2 }]) ∧
    (st.carts.find? (fun c => c.user_id == uid) = none →
      ∀ item2 now2, sameKey item item2 = false →
        userCartItems
          (add_to_cart (add_to_cart st uid item now).1 uid item2 now2).1 uid =
          some [item, item2]) := by
  refine ⟨?_, ?_, ?_, ?_, ?_⟩
  · intro h
    rw [userCartItems, add_to_cart_carts_none st uid item now h, find?_append_none _ _ _ h]
    simp
  · intro c hc hmiss
    rw [userCartItems_add_found st uid item now c hc,
      mergeItem_of_no_match item c.items hmiss]
  · intro c hc hhit
    have efind := userCartItems_add_found st uid item now c hc
    constructor
    · rw [efind, mergeItem_of_match item c.items hhit]
    · rw [efind, mergeItem_of_match item c.items hhit]
      simp [updateFirst_length]
  · intro h q2 now2
    have hfind1 : (add_to_cart st uid item now).1.carts.find? (fun d => d.user_id == uid) =
        some ⟨uid, [item], now⟩ := by
      rw [add_to_cart_carts_none st uid item now h, find?_append_none _ _ _ h]
      simp
    rw [userCartItems_add_found _ uid _ now2 _ hfind1]
    have hsame : sameKey item { item with quantity := q2 } = true := by
      simp [sameKey]
    simp [mergeItem, hsame]
  · intro h item2 now2 hdiff
    have hfind1 : (add_to_cart st uid item now).1.carts.find? (fun d => d.user_id == uid) =
        some ⟨uid, [item], now⟩ := by
      rw [add_to_cart_carts_none st uid item now h, find?_append_none _ _ _ h]
      simp
    rw [userCartItems_add_found _ uid _ now2 _ hfind1]
    simp [mergeItem, hdiff]

/-- C2 witness: from an empty store, adding (p1, M, red) with quantity 2
twice leaves a single line item of quantity 4, and adding (p2, L, blue)
after (p1, M, red) leaves the two line items. -/
theorem C2_cart_addItem_witness :
    userCartItems
        (add_to_cart (add_to_cart ⟨[], [], [], [], []⟩ "u1"
            ⟨"p1", 2, "M", "red"⟩ "t1").1 "u1"
          ⟨"p1", 2, "M", "red"⟩ "t2").1 "u1" =
      some [⟨"p1", 4, "M", "red"⟩] ∧
    userCartItems
        (add_to_cart (add_to_cart ⟨[], [], [], [], []⟩ "u1"
            ⟨"p1", 2, "M", "red"⟩ "t1").1 "u1"
          ⟨"p2", 3, "L", "blue"⟩ "t2").1 "u1" =
      some [⟨"p1", 2, "M", "red"⟩, ⟨"p2", 3, "L", "blue"⟩] :=
  ⟨(C2_cart_addItem ⟨[], [], [], [], []⟩ "u1" ⟨"p1", 2, "M", "red"⟩ "t1").2.2.2.1
      (by decide) 2 "t2",
   (C2_cart_addItem ⟨[], [], [], [], []⟩ "u1" ⟨"p1", 2, "M", "red"⟩ "t1").2.2.2.2
      (by decide) ⟨"p2", 3, "L", "blue"⟩ "t2" (by decide)⟩

/-- C3: on a cart whose line items have pairwise distinct
(product, size, color) keys, each cart mutation — merging in an item,
overwriting a quantity, removing by key — yields a stored item list that
again has pairwise distinct keys. -/
theorem C3_cart_invariant (st : DBState) (uid now pid size color : String)
    (item : CartItem) (q : Int) (c : CartDoc)
    (hc : st.carts.find? (fun d => d.user_id == uid) = some c)
    (hinv : NoDupKeys c.items) :
    (userCartItems (add_to_cart st uid item now).1 uid = some (mergeItem item c.items) ∧
      NoDupKeys (mergeItem item c.items)) ∧
    (userCartItems (update_cart_item st uid pid q size color now).1 uid =
        some (setQtyFirst pid size color q c.items) ∧
      NoDupKeys (setQtyFirst pid size color q c.items)) ∧
    (userCartItems (remove_from_cart st uid pid size color now).1 uid =
        some (c.items.filter
          (fun i => !(i.product_id == pid && i.size == size && i.color == color))) ∧
      NoDupKeys (c.items.filter
        (fun i => !(i.product_id == pid && i.size == size && i.color == color)))) := by
  refine ⟨⟨?_, nodupKeys_mergeItem item c.items hinv⟩, ⟨?_, ?_⟩, ⟨?_, ?_⟩⟩
  · have e : (add_to_cart st uid item now).1.carts =
        updateFirst (fun d => d.user_id == uid)
          (fun d => { d with items := mergeItem item d.items, updated_at := now })
          st.carts := by
      simp [add_to_cart, hc]
    rw [userCartItems, e, find?_updateFirst (fun d => d.user_id == uid)
      (fun d => { d with items := mergeItem item d.items, updated_at := now })
      (fun a => rfl) st.carts, hc]
    rfl
  · have e : (update_cart_item st uid pid q size color now).1.carts =
        updateFirst (fun d => d.user_id == uid)
          (fun d => { d with items := setQtyFirst pid size color q d.items,
                             updated_at := now })
          st.carts := by
      simp [update_cart_item, hc]
    rw [userCartItems, e, find?_updateFirst (fun d => d.user_id == uid)
      (fun d => { d with items := setQtyFirst pid size color q d.items,
                         updated_at := now })
      (fun a => rfl) st.carts, hc]
    rfl
  · rw [NoDupKeys, map_keyOf_setQtyFirst]
    exact hinv
  · have e : (remove_from_cart st uid pid size color now).1.carts =
        updateFirst (fun d => d.user_id == uid)
          (fun d => { d with
            items := d.items.filter
              (fun i => !(i.product_id == pid && i.size == size && i.color == color)),
            updated_at := now })
          st.carts := by
      simp [remove_from_cart, hc]
    rw [userCartItems, e, find?_updateFirst (fun d => d.user_id == uid)
      (fun d => { d with
        items := d.items.filter
          (fun i => !(i.product_id == pid && i.size == size && i.color == color)),
        updated_at := now })
      (fun a => rfl) st.carts, hc]
    rfl
  · exact hinv.sublist (List.Sublist.map keyOf (List.filter_sublist c.items))

/-- C3 witness: on a concrete two-item duplicate-free cart, merging a
matching item keeps the keys duplicate-free. -/
theorem C3_cart_invariant_witness :
    userCartItems
        (add_to_cart
          ⟨[], [], [], [⟨"u1", [⟨"p1", 1, "M", "red"⟩, ⟨"p2", 1, "L", "blue"⟩], "t0"⟩], []⟩
          "u1" ⟨"p1", 3, "M", "red"⟩ "t1").1 "u1" =
      some (mergeItem ⟨"p1", 3, "M", "red"⟩
        [⟨"p1", 1, "M", "red"⟩, ⟨"p2", 1, "L", "blue"⟩]) ∧
    NoDupKeys (mergeItem ⟨"p1", 3, "M", "red"⟩
      [⟨"p1", 1, "M", "red"⟩, ⟨"p2", 1, "L", "blue"⟩]) :=
  (C3_cart_invariant
    ⟨[], [], [], [⟨"u1", [⟨"p1", 1, "M", "red"⟩, ⟨"p2", 1, "L", "blue"⟩], "t0"⟩], []⟩
    "u1" "t1" "p1" "M" "red" ⟨"p1", 3, "M", "red"⟩ 9
    ⟨"u1", [⟨"p1", 1, "M", "red"⟩, ⟨"p2", 1, "L", "blue"⟩], "t0"⟩
    (by decide) (by decide)).1

/-- Decidable equality of handler results. -/
instance {ε α : Type} [DecidableEq ε] [DecidableEq α] : DecidableEq (Except ε α) := fun a b =>
  match a, b with
  | Except.ok x, Except.ok y => decidable_of_iff (x = y) (by simp)
  | Except.error x, Except.error y => decidable_of_iff (x = y) (by simp)
  | Except.ok _, Except.error _ => isFalse (fun hc => Except.noConfusion hc)
  | Except.error _, Except.ok _ => isFalse (fun hc => Except.noConfusion hc)

/-- The review document built by create_review on the success path. -/
def newReview (pid : String) (rd : ReviewCreate) (user : UserView)
    (rid nowIso : String) : ReviewDoc :=
  ⟨rid, pid, user.id, user.name, rd.rating, rd.comment, nowIso⟩

/-- The product update applied by create_review: rating becomes the rounded
mean of the given review collection restricted to the product, and
review_count its size. -/
def ratingUpdate (reviews : List ReviewDoc) (pid : String) (q : ProductDoc) :
    ProductDoc :=
  { q with
    rating := pyRound1 (((reviewsFor reviews pid).map (fun r => (r.rating : ℚ))).sum /
      ((reviewsFor reviews pid).length : ℚ)),
    review_count := (reviewsFor reviews pid).length }

/-- Evaluation of create_review on its success path: the review is
appended and the product aggregate recomputed over the post-insert
collection. -/
theorem create_review_success (st : DBState) (pid : String) (rd : ReviewCreate)
    (user : UserView) (rid nowIso : String) (p0 : ProductDoc)
    (hfp : st.products.find? (fun q => q.id == pid) = some p0)
    (hrv : st.reviews.find? (fun r => r.product_id == pid && r.user_id == user.id) = none) :
    create_review st pid rd user rid nowIso =
      (⟨st.users,
        updateFirst (fun q => q.id == pid)
          (fun q => ratingUpdate (st.reviews ++ [newReview pid rd user rid nowIso]) pid q)
          st.products,
        st.reviews ++ [newReview pid rd user rid nowIso],
        st.carts, st.orders⟩,
       Except.ok (newReview pid rd user rid nowIso)) := by
  simp [create_review, hfp, hrv, newReview, ratingUpdate, reviewsFor]

/-- C1: after a successful review creation, the stored rating of the
reviewed product equals the arithmetic mean of the ratings of all reviews stored for
that product rounded to one decimal place, and its review_count equals the
number of reviews stored for it. -/
theorem C1_review_aggregate (st : DBState) (pid : String) (rd : ReviewCreate)
    (user : UserView) (rid nowIso : String) (st2 : DBState) (rev : ReviewDoc)
    (h : create_review st pid rd user rid nowIso = (st2, Except.ok rev))
    (p : ProductDoc) (hp : st2.products.find? (fun q => q.id == pid) = some p) :
    p.rating = pyRound1 (((reviewsFor st2.reviews pid).map (fun r => (r.rating : ℚ))).sum /
      ((reviewsFor st2.reviews pid).length : ℚ)) ∧
    p.review_count = (reviewsFor st2.reviews pid).length := by
  cases hfp : st.products.find? (fun q => q.id == pid) with
  | none =>
    simp only [create_review, hfp] at h
    have h2 := congrArg Prod.snd h
    simp at h2
  | some p0 =>
    cases hrv : st.reviews.find? (fun r => r.product_id == pid && r.user_id == user.id) with
    | some r0 =>
      simp only [create_review, hfp, hrv] at h
      have h2 := congrArg Prod.snd h
      simp at h2
    | none =>
      rw [create_review_success st pid rd user rid nowIso p0 hfp hrv] at h
      have hst2 : st2 =
          ⟨st.users,
           updateFirst (fun q => q.id == pid)
             (fun q => ratingUpdate (st.reviews ++ [newReview pid rd user rid nowIso]) pid q)
             st.products,
           st.reviews ++ [newReview pid rd user rid nowIso],
           st.carts, st.orders⟩ := by
        rw [Prod.mk.injEq] at h
        exact h.1.symm
      have hrevs : st2.reviews = st.reviews ++ [newReview pid rd user rid nowIso] := by
        rw [hst2]
      have hprods : st2.products =
          updateFirst (fun q => q.id == pid)
            (fun q => ratingUpdate (st.reviews ++ [newReview pid rd user rid nowIso]) pid q)
            st.products := by
        rw [hst2]
      rw [hprods, find?_updateFirst (fun q => q.id == pid)
        (fun q => ratingUpdate (st.reviews ++ [newReview pid rd user rid nowIso]) pid q)
        (fun a => rfl) st.products, hfp] at hp
      have hpe : p = ratingUpdate (st.reviews ++ [newReview pid rd user rid nowIso]) pid p0 :=
        (Option.some.inj hp).symm
      rw [hpe, hrevs]
      exact ⟨rfl, rfl⟩

/-- C1 witness: for a concrete first review of rating 4, the product
record stored by create_review has exactly the recomputed rounded mean and
count over the post-insert review collection. -/
theorem C1_review_aggregate_witness :
    (ratingUpdate
        (([] : List ReviewDoc) ++
          [newReview "p1" ⟨4, "nice"⟩ ⟨"u1", "Ann", "ann@shop.io", false, [], "t0"⟩ "r1" "t2"])
        "p1" ⟨"p1", "Tee", "D", 10, [], [], [], "cat", 5, 0, 0, "t"⟩).rating =
      pyRound1
        (((reviewsFor
            (create_review
              ⟨[], [⟨"p1", "Tee", "D", 10, [], [], [], "cat", 5, 0, 0, "t"⟩], [], [], []⟩
              "p1" ⟨4, "nice"⟩ ⟨"u1", "Ann", "ann@shop.io", false, [], "t0"⟩ "r1" "t2").1.reviews
            "p1").map (fun r => (r.rating : ℚ))).sum /
          ((reviewsFor
            (create_review
              ⟨[], [⟨"p1", "Tee", "D", 10, [], [], [], "cat", 5, 0, 0, "t"⟩], [], [], []⟩
              "p1" ⟨4, "nice"⟩ ⟨"u1", "Ann", "ann@shop.io", false, [], "t0"⟩ "r1" "t2").1.reviews
            "p1").length : ℚ)) ∧
    (ratingUpdate
        (([] : List ReviewDoc) ++
          [newReview "p1" ⟨4, "nice"⟩ ⟨"u1", "Ann", "ann@shop.io", false, [], "t0"⟩ "r1" "t2"])
        "p1" ⟨"p1", "Tee", "D", 10, [], [], [], "cat", 5, 0, 0, "t"⟩).review_count =
      (reviewsFor
        (create_review
          ⟨[], [⟨"p1", "Tee", "D", 10, [], [], [], "cat", 5, 0, 0, "t"⟩], [], [], []⟩
          "p1" ⟨4, "nice"⟩ ⟨"u1", "Ann", "ann@shop.io", false, [], "t0"⟩ "r1" "t2").1.reviews
        "p1").length :=
  C1_review_aggregate
    ⟨[], [⟨"p1", "Tee", "D", 10, [], [], [], "cat", 5, 0, 0, "t"⟩], [], [], []⟩
    "p1" ⟨4, "nice"⟩ ⟨"u1", "Ann", "ann@shop.io", false, [], "t0"⟩ "r1" "t2"
    (create_review
      ⟨[], [⟨"p1", "Tee", "D", 10, [], [], [], "cat", 5, 0, 0, "t"⟩], [], [], []⟩
      "p1" ⟨4, "nice"⟩ ⟨"u1", "Ann", "ann@shop.io", false, [], "t0"⟩ "r1" "t2").1
    ⟨"r1", "p1", "u1", "Ann", 4, "nice", "t2"⟩ rfl
    (ratingUpdate
      (([] : List ReviewDoc) ++
        [newReview "p1" ⟨4, "nice"⟩ ⟨"u1", "Ann", "ann@shop.io", false, [], "t0"⟩ "r1" "t2"])
      "p1" ⟨"p1", "Tee", "D", 10, [], [], [], "cat", 5, 0, 0, "t"⟩) rfl

/-- C9: on the success path of create_review the review collection re-read
for the product contains the just-inserted review, so the divisor of the
average computation — the number of reviews for the product — is at least
one and the division-by-zero case is unreachable. -/
theorem C9_review_divisor_positive (st : DBState) (pid : String) (rd : ReviewCreate)
    (user : UserView) (rid nowIso : String) (st2 : DBState) (rev : ReviewDoc)
    (h : create_review st pid rd user rid nowIso = (st2, Except.ok rev)) :
    0 < (reviewsFor st2.reviews pid).length := by
  cases hfp : st.products.find? (fun q => q.id == pid) with
  | none =>
    simp only [create_review, hfp] at h
    have h2 := congrArg Prod.snd h
    simp at h2
  | some p0 =>
    cases hrv : st.reviews.find? (fun r => r.product_id == pid && r.user_id == user.id) with
    | some r0 =>
      simp only [create_review, hfp, hrv] at h
      have h2 := congrArg Prod.snd h
      simp at h2
    | none =>
      rw [create_review_success st pid rd user rid nowIso p0 hfp hrv] at h
      have hrevs : st2.reviews = st.reviews ++ [newReview pid rd user rid nowIso] := by
        rw [Prod.mk.injEq] at h
        rw [h.1.symm]
      rw [hrevs, reviewsFor]
      have hmem : newReview pid rd user rid nowIso ∈
          (st.reviews ++ [newReview pid rd user rid nowIso]).filter
            (fun r => r.product_id == pid) := by
        apply List.mem_filter.mpr
        exact ⟨by simp, by simp [newReview]⟩
      exact List.length_pos_of_mem hmem

/-- C9 witness: after the concrete successful review creation the stored
review collection for the product is non-empty. -/
theorem C9_review_divisor_positive_witness :
    0 < (reviewsFor
      (create_review
        ⟨[], [⟨"p1", "Tee", "D", 10, [], [], [], "cat", 5, 0, 0, "t"⟩], [], [], []⟩
        "p1" ⟨4, "nice"⟩ ⟨"u1", "Ann", "ann@shop.io", false, [], "t0"⟩ "r1" "t2").1.reviews
      "p1").length :=
  C9_review_divisor_positive
    ⟨[], [⟨"p1", "Tee", "D", 10, [], [], [], "cat", 5, 0, 0, "t"⟩], [], [], []⟩
    "p1" ⟨4, "nice"⟩ ⟨"u1", "Ann", "ann@shop.io", false, [], "t0"⟩ "r1" "t2"
    (create_review
      ⟨[], [⟨"p1", "Tee", "D", 10, [], [], [], "cat", 5, 0, 0, "t"⟩], [], [], []⟩
      "p1" ⟨4, "nice"⟩ ⟨"u1", "Ann", "ann@shop.io", false, [], "t0"⟩ "r1" "t2").1
    ⟨"r1", "p1", "u1", "Ann", 4, "nice", "t2"⟩ rfl

end Chaptered
